import Mathlib

/-!
Verification development for the WhisperFlight AI repository.

The shallow embedding below translates the relevant parts of
`state_manager.py`, `navigation.py`, `geo_utils.py` and `ai_provider.py`
into Lean.  Python strings become Lean `String`, Python floats in the
discrete control logic become `ℚ` (exact arithmetic), and the
transcendental great-circle math (`GeoUtils.calculate_heading_distance`)
is modelled over `ℝ`.  Stateful methods become pure functions from a
state record to a new state record together with a trace of observable
side effects (speech, listening control, logging, callbacks).
External collaborators (the audio processor, the AI provider, the
simulator telemetry server, the geocoding network) are modelled as
explicit inputs describing the outcome of the external call.
-/

/-- Python whitespace characters recognised by `str.strip` / `str.split`. -/
def pyIsSpace (c : Char) : Bool :=
  c = ' ' ∨ c = '\t' ∨ c = '\n' ∨ c = '\x0d' ∨ c = '\x0b' ∨ c = '\x0c'

/-- Python `str.strip()`: remove leading and trailing whitespace. -/
def pyStrip (s : String) : String :=
  ⟨(((s.data.dropWhile pyIsSpace).reverse.dropWhile pyIsSpace).reverse)⟩

/-- ASCII lowercasing of one character (Python `str.lower` on the ASCII
strings this program manipulates). -/
def pyLowerChar (c : Char) : Char :=
  if 65 ≤ c.toNat ∧ c.toNat ≤ 90 then Char.ofNat (c.toNat + 32) else c

/-- Python `str.lower()`. -/
def pyLower (s : String) : String := ⟨s.data.map pyLowerChar⟩

/-- Is the first list a leading segment of the second? -/
def leadsChars : List Char → List Char → Bool
  | [], _ => true
  | _ :: _, [] => false
  | p :: ps, c :: cs => p = c && leadsChars ps cs

/-- Python `s.startswith(p)`. -/
def pyStartsWith (s pre : String) : Bool := leadsChars pre.data s.data

/-- Does the first character list occur contiguously inside the second? -/
def subChars (needle : List Char) : List Char → Bool
  | [] => needle.isEmpty
  | c :: rest => leadsChars needle (c :: rest) || subChars needle rest

/-- Python `needle in haystack` substring test. -/
def substrOf (needle hay : String) : Bool := subChars needle.data hay.data

/-- Number of whitespace-separated words, i.e. `len(s.split())` in Python. -/
def wordCount : List Char → Bool → Nat
  | [], _ => 0
  | c :: cs, inWord =>
    if pyIsSpace c then wordCount cs false
    else (if inWord then 0 else 1) + wordCount cs true

/-- Python `len(s.split())`. -/
def pyWordCount (s : String) : Nat := wordCount s.data false

/-- State enumeration `AppState` from `state_manager.py` (class `AppState(Enum)`). -/
inductive AppState where
  | STANDBY | ACTIVE | LISTENING | PROCESSING | RESPONDING
  | WAITING | NAVIGATION | TOURING | ERROR
deriving DecidableEq, Repr

/-- A conversation turn, `{"role": ..., "content": ...}` as stored in
`StateManager.conversation_context`. -/
structure Msg where
  role : String
  content : String
deriving DecidableEq, Repr

/-- Observable side effects of `StateManager` methods: calls into the
audio processor, logging of transitions, the `STATUS:` prints, invoking
registered state-change callbacks, spawning a worker thread, and
navigation-tracking control. -/
inductive Effect where
  | speak (text : String) (sound : Option String)
  | stopListening
  | startListening
  | clearAudioQueue
  | logTransition (fromSt toSt : AppState) (reason : Option String)
  | statusPrint (st : AppState)
  | callback (prev next : AppState) (reason : Option String)
  | spawnWorker (name : String) (arg : Option String)
  | stopTracking
  | startTracking (dest : String)
deriving DecidableEq, Repr

/-- The mutable fields of `StateManager` that the claims are about
(`__init__` of `state_manager.py`).  `num_callbacks` abstracts the
length of `state_change_callbacks`; `providers` abstracts
`ai_manager.providers.keys()`; `state_change_time` is an abstract clock
(the source stores `time.time()`, modelled as a tick counter). -/
structure SMState where
  current_state : AppState
  previous_state : Option AppState
  state_change_time : Nat
  context_length : Nat
  conversation_context : List Msg
  num_callbacks : Nat
  navigation_active : Bool
  last_destination : Option String
  last_dest_lat : Option ℚ
  last_dest_lon : Option ℚ
  active_api : String
  providers : List String
deriving DecidableEq, Repr

/-- Model of `StateManager.change_state` (state_manager.py lines 51-71): no-op when
`new_state == self.current_state`; otherwise records previous state, the
new state and a fresh change time, logs the transition, prints a status
line for some states, and invokes every registered callback. -/
def change_state (st : SMState) (new : AppState) (reason : Option String) :
    SMState × List Effect :=
  if new = st.current_state then (st, [])
  else
    let st1 : SMState :=
      { st with previous_state := some st.current_state
                current_state := new
                state_change_time := st.state_change_time + 1 }
    let statusEff : List Effect :=
      if new = AppState.ACTIVE ∨ new = AppState.WAITING ∨
         new = AppState.PROCESSING ∨ new = AppState.STANDBY ∨
         new = AppState.NAVIGATION then [Effect.statusPrint new] else []
    (st1,
      [Effect.logTransition st.current_state new reason] ++ statusEff ++
        List.replicate st.num_callbacks (Effect.callback st.current_state new reason))

/-- Model of `StateManager.add_to_conversation`: appends a turn to the bounded
deque (maxlen `context_length`, oldest discarded) unless the role is
unknown or the content empty. -/
def add_to_conversation (st : SMState) (role content : String) : SMState :=
  if (role = "user" ∨ role = "assistant" ∨ role = "system") ∧ content ≠ "" then
    let l := st.conversation_context ++ [⟨role, content⟩]
    { st with conversation_context := l.drop (l.length - st.context_length) }
  else st

/-- The `junk_exact` list from `StateManager.handle_command`. -/
def junk_exact : List String :=
  [".", ",", "?", "!", "-", "you", "the", "a", "uh", "um", "no.", "nope.",
   "great.", "now", "now..."]

/-- The `junk_phrases` list from `StateManager.handle_command`. -/
def junk_phrases : List String :=
  ["more questions", "checking your location", "okay, standing by",
   "okay standing by", "okay, what is your question",
   "okay what is your question", "whisper ai ready",
   "understood. safe flying", "understood safe flying",
   "understood, let me know", "let me know if you need anything else",
   "feel free to ask anything", "feel free to ask anytime",
   "feel free to ask", "safe flying",
   "i\x27m going to start with the first one", "you\x27re hovering near",
   "you\x27re soaring above", "in the 08036 zip code area",
   "from this vantage point", "could you please clarify", "copy that",
   "are you referring to", "it seems like you might be",
   "alright, take care"]

/-- The junk filter at the top of `StateManager.handle_command`
(lines 149-175): the trimmed command is junk when it is empty, shorter
than 3 characters, exactly one of `junk_exact` (lowercased), or starts
with one of `junk_phrases` (lowercased). -/
def isJunk (command : String) : Bool :=
  let command_strip := pyStrip command
  let cmd_lower_strip := pyLower command_strip
  if command_strip = "" ∨ command_strip.data.length < 3 then true
  else if junk_exact.any (fun j => j == cmd_lower_strip) then true
  else junk_phrases.any (fun phrase => pyStartsWith cmd_lower_strip phrase)

/-- The `wake_variations` list from `StateManager.handle_wake_word`. -/
def wake_variations : List String := ["sky tour", "skytour", "scatour"]

/-- fuzzy wake variants from `StateManager.handle_wake_word`. -/
def fuzzy_wake : List String :=
  ["sky to", "sky tore", "sky tor", "skator", "skater", "sky door",
   "sky t", "sky2"]

/-- reactivation phrases from `StateManager.handle_wake_word`. -/
def reactivate_phrases : List String :=
  ["question", "i have a question", "where am i", "are you there",
   "hello whisper"]

/-- Model of `StateManager.handle_wake_word` (lines 124-147).  Returns
(handled, new state, effects). -/
def handle_wake_word (st : SMState) (wake_word : String) :
    Bool × SMState × List Effect :=
  if st.current_state ≠ AppState.STANDBY then (false, st, [])
  else
    let wake_lower := pyStrip (pyLower wake_word)
    if wake_variations.any (fun v => v == wake_lower) then
      let (st1, e1) := change_state st AppState.ACTIVE (some "Wake word")
      (true, st1,
        e1 ++ [Effect.speak "" (some "optimus_prime"), Effect.clearAudioQueue,
               Effect.startListening])
    else if fuzzy_wake.any (fun v => substrOf v wake_lower) ∧
            pyWordCount wake_lower ≤ 3 then
      (true, st, [Effect.speak "Say Sky Tour clearly." none])
    else if reactivate_phrases.any (fun p => substrOf p wake_lower) then
      let (st1, e1) :=
        change_state st AppState.ACTIVE (some "Reactivated")
      let e2 := e1 ++ [Effect.clearAudioQueue, Effect.startListening]
      let e3 :=
        if ¬ substrOf "where am i" wake_lower then
          if substrOf "question" wake_lower then
            e2 ++ [Effect.speak "Okay, what\x27s your question?" none]
          else e2 ++ [Effect.speak "Whisper AI ready." none]
        else e2
      (true, st1, e3)
    else (false, st, [])

/-- Model of `StateManager.set_active_api` (without the unavailable-AIManager
guard, as `ai_manager` always exists at runtime). -/
def set_active_api (st : SMState) (api_provider : String) :
    Bool × SMState × List Effect :=
  let api_lower := pyLower api_provider
  if ¬ st.providers.any (fun p => p == api_lower) then
    (false, st, [Effect.speak "Available providers" none])
  else
    let st1 := if st.active_api ≠ api_lower then { st with active_api := api_lower } else st
    let eff :=
      if st1.current_state = AppState.ACTIVE ∨ st1.current_state = AppState.WAITING then
        [Effect.startListening]
      else []
    (true, st1, eff)

/-- Model of `StateManager._is_navigation_query`: any keyword followed by a space
occurring as a substring. -/
def is_navigation_query (text : String) : Bool :=
  ["take me to", "fly to", "go to", "head to", "navigate to",
   "how do i get to", "which way to", "direction to", "heading to"].any
    (fun k => substrOf (k ++ " ") text)

/-- Model of `StateManager._is_tour_request`: any keyword occurring as a substring. -/
def is_tour_request (text : String) : Bool :=
  ["give me a tour", "show me around", "tell me about this area",
   "what\x27s interesting here", "points of interest", "what can i see",
   "what\x27s below", "what\x27s around here"].any
    (fun k => substrOf k text)

/-- Model of `StateManager._setup_arrival_notification`: stops any previous
tracking, fails when the last destination fields are missing, otherwise
starts tracking (which always returns True in `navigation.py`). -/
def setup_arrival_notification (st : SMState) : Bool × SMState × List Effect :=
  let (st0, e0) :=
    if st.navigation_active then
      ({ st with navigation_active := false }, [Effect.stopTracking])
    else (st, [])
  if st0.last_destination = none ∨ st0.last_dest_lat = none ∨
     st0.last_dest_lon = none then (false, st0, e0)
  else
    (true, { st0 with navigation_active := true },
      e0 ++ [Effect.startTracking (st0.last_destination.getD "")])

/-- The `negative_responses` list from `StateManager.handle_command`. -/
def negative_responses : List String :=
  ["no", "nope", "stop", "that\x27s all", "nothing else"]

/-- Model of `StateManager.handle_command` (state_manager.py lines 149-249):
junk filter, then dispatch on the current state.  In `STANDBY` it defers
to the wake-word handler; in `ACTIVE`/`WAITING` it classifies the
command first-match-wins; in every other state the command is logged
and dropped.  Returns (handled, new state, effects). -/
def handle_command (st : SMState) (command : String) :
    Bool × SMState × List Effect :=
  if isJunk command then (false, st, [])
  else
    let cmd_lower := pyLower (pyStrip command)
    let current_st := st.current_state
    if current_st = AppState.STANDBY then handle_wake_word st command
    else if current_st = AppState.ACTIVE ∨ current_st = AppState.WAITING then
      let st := if cmd_lower ≠ "question" ∧
                   ¬ negative_responses.any (fun neg => pyStartsWith cmd_lower neg)
                then add_to_conversation st "user" command else st
      if current_st = AppState.WAITING ∧
         negative_responses.any (fun neg => pyStartsWith cmd_lower neg) then
        let (st1, e1) := change_state st AppState.STANDBY (some "User stop/decline.")
        (true, st1,
          [Effect.speak "Okay, going to standby." none, Effect.stopListening] ++ e1)
      else if substrOf "deactivate" cmd_lower ∨ substrOf "shut down" cmd_lower then
        let e0 := [Effect.speak "" (some "deactivate"), Effect.stopListening]
        let (st1, e1) :=
          if st.navigation_active then
            ({ st with navigation_active := false }, [Effect.stopTracking])
          else (st, [])
        let (st2, e2) := change_state st1 AppState.STANDBY (some "Deactivation")
        (true, { st2 with conversation_context := [] }, e0 ++ e1 ++ e2)
      else if substrOf "reset" cmd_lower then
        let e0 := [Effect.speak "Resetting context." none]
        let st1 := { st with conversation_context := [] }
        let (st2, e2) :=
          if st1.navigation_active then
            ({ st1 with navigation_active := false }, [Effect.stopTracking])
          else (st1, [])
        let (st3, e3) := change_state st2 AppState.ACTIVE (some "Reset")
        (true, st3, e0 ++ e2 ++ e3 ++ [Effect.startListening])
      else if substrOf "switch to" cmd_lower then
        let provider : Option String :=
          if substrOf "grok" cmd_lower then some "grok"
          else if substrOf "open" cmd_lower then some "openai"
          else none
        let (st1, e1) :=
          match provider with
          | some p => let (_, s, e) := set_active_api st p; (s, e)
          | none => (st, [Effect.speak "Options: Grok, OpenAI." none])
        let e2 :=
          if st1.current_state = AppState.ACTIVE ∨ st1.current_state = AppState.WAITING then
            [Effect.startListening]
          else []
        (true, st1, e1 ++ e2)
      else if substrOf "where am i" cmd_lower then
        let (st1, e1) := change_state st AppState.PROCESSING (some "Where am I cmd")
        (true, st1, [Effect.stopListening] ++ e1 ++ [Effect.spawnWorker "where_am_i" none])
      else if is_navigation_query cmd_lower then
        let (st1, e1) := change_state st AppState.PROCESSING (some "Nav request")
        (true, st1, [Effect.stopListening] ++ e1 ++ [Effect.spawnWorker "navigation" (some command)])
      else if is_tour_request cmd_lower then
        let (st1, e1) := change_state st AppState.PROCESSING (some "Tour request")
        (true, st1, [Effect.stopListening] ++ e1 ++ [Effect.spawnWorker "tour" (some command)])
      else if substrOf "tell me when" cmd_lower then
        match st.last_destination with
        | some dest =>
          let e0 := [Effect.stopListening]
          let (st1, e1) := change_state st AppState.PROCESSING (some "Setup notify")
          let (success, st2, e2) := setup_arrival_notification st1
          let (msg, next_state) :=
            if success then (s!"Tracking: {dest}.", AppState.NAVIGATION)
            else ("Couldn\x27t setup tracking.", AppState.ACTIVE)
          let (st3, e3) := change_state st2 next_state (some "Notify setup done")
          let e4 :=
            if st3.current_state ≠ AppState.STANDBY then [Effect.startListening] else []
          (true, st3, e0 ++ e1 ++ e2 ++ [Effect.speak msg none] ++ e3 ++ e4)
        | none =>
          let e0 := [Effect.speak "No destination." none]
          let (st1, e1) := change_state st AppState.ACTIVE (some "No dest notify")
          (true, st1, e0 ++ e1 ++ [Effect.startListening])
      else
        if cmd_lower = "question" then
          let e0 := [Effect.speak "Okay, what is your question?" none]
          let (st1, e1) := change_state st AppState.ACTIVE (some "Ready for question")
          (true, st1, e0 ++ e1 ++ [Effect.startListening])
        else
          let (st1, e1) := change_state st AppState.PROCESSING (some "General question")
          (true, st1, [Effect.stopListening] ++ e1 ++ [Effect.spawnWorker "general" (some command)])
    else (false, st, [])

/-- The `StateManager` singleton right after `__init__` (defaults from
`config` were taken at their fallback values: context length 10,
default provider openai, both providers configured). -/
def initState : SMState :=
  { current_state := AppState.STANDBY
    previous_state := none
    state_change_time := 0
    context_length := 10
    conversation_context := []
    num_callbacks := 0
    navigation_active := false
    last_destination := none
    last_dest_lat := none
    last_dest_lon := none
    active_api := "openai"
    providers := ["openai", "grok"] }

/-- The `error_indicators` list defined locally inside
`AIManager.generate_response` (ai_provider.py lines 260-269). -/
def error_indicators : List String :=
  ["API key is missing", "I couldn\x27t connect",
   "I\x27m having trouble connecting", "There was a problem with",
   "Something went wrong", "Authentication failed",
   "API rate limit reached", "Received an unexpected response"]

/-- What `getattr(ai_manager, "error_indicators", [])` evaluates to in
the worker handlers of `state_manager.py`: `error_indicators` is a local
variable of `AIManager.generate_response`, never an attribute of the
`AIManager` instance, so the `getattr` falls back to its default `[]`. -/
def ai_manager_error_indicators_attr : List String := []

/-- The error-prefix test the nav-request handler applies to the
formatted navigation response (a literal list in
`_handle_navigation_request`, line 289). -/
def nav_error_indicators : List String := ["I couldn\x27t find", "I encountered"]

/-- Outcome of the external calls made by a worker handler body:
either the body raises an exception somewhere (missing telemetry,
audio processor failure, provider crash — all funnelled into the
`except` clause), or it reaches the AI response and the attempt to
speak it, with `speak_ok` the boolean returned by
`audio_processor.speak(response)`. -/
inductive WorkerOutcome where
  | raised
  | normal (response : String) (speak_ok : Bool)

/-- Outcome of `_handle_navigation_request`: as `WorkerOutcome`, but a
successful lookup also carries the resolved destination
(`dir_info["destination_name"]`, latitude, longitude); `dir_info` being
`None` raises `ValueError` and is covered by `raised`.  `response`
abstracts `format_navigation_response(dir_info)`, which depends on live
telemetry. -/
inductive NavWorkerOutcome where
  | raised
  | found (dest : String) (dlat dlon : ℚ) (response : String) (speak_ok : Bool)

/-- The shared `finally` block of every worker handler
(state_manager.py lines 276-279, 295-298, 337-340, 363-366): when the
decided next state is `ACTIVE` or `WAITING`, restart continuous
listening, then perform the state change. -/
def workerFinally (st : SMState) (next : AppState) (reason : String)
    (eff : List Effect) : SMState × List Effect :=
  let effL :=
    if next = AppState.ACTIVE ∨ next = AppState.WAITING then
      [Effect.startListening]
    else []
  let (st1, e1) := change_state st next (some reason)
  (st1, eff ++ effL ++ e1)

/-- Model of `StateManager._handle_where_am_i_with_tour` (lines 254-279).  The
message-list assembly and reverse geocoding only shape the AI request
and are absorbed into the environment-supplied `response`. -/
def handle_where_am_i (st : SMState) (out : WorkerOutcome) :
    SMState × List Effect :=
  match out with
  | WorkerOutcome.raised =>
      workerFinally st AppState.ACTIVE "Error loc proc"
        [Effect.speak "Checking your location..." none,
         Effect.speak "Error getting location." none]
  | WorkerOutcome.normal response speak_ok =>
      let is_err := ai_manager_error_indicators_attr.any
        (fun i => pyStartsWith response i)
      let eff := [Effect.speak "Checking your location..." none,
                  Effect.speak response none]
      if speak_ok ∧ ¬ is_err then
        workerFinally (add_to_conversation st "assistant" response)
          AppState.WAITING "Loc provided"
          (eff ++ [Effect.speak "More questions?" none])
      else if is_err then
        workerFinally st AppState.ACTIVE "AI error loc" eff
      else
        workerFinally st AppState.ACTIVE "TTS fail" eff

/-- Model of `StateManager._handle_navigation_request` (lines 281-298). -/
def handle_navigation_request (st : SMState) (out : NavWorkerOutcome) :
    SMState × List Effect :=
  match out with
  | NavWorkerOutcome.raised =>
      workerFinally st AppState.ACTIVE "Nav proc error"
        [Effect.speak "Calculating..." none,
         Effect.speak "Error calculating." none]
  | NavWorkerOutcome.found dest dlat dlon response speak_ok =>
      let is_err := nav_error_indicators.any (fun i => pyStartsWith response i)
      let eff := [Effect.speak "Calculating..." none, Effect.speak response none]
      if speak_ok ∧ ¬ is_err then
        let st1 := { st with last_destination := some dest
                             last_dest_lat := some dlat
                             last_dest_lon := some dlon }
        workerFinally (add_to_conversation st1 "assistant" response)
          AppState.WAITING "Nav provided"
          (eff ++ [Effect.speak "Notify on arrival?" none])
      else if is_err then
        workerFinally st AppState.ACTIVE "Nav lookup err" eff
      else
        workerFinally st AppState.ACTIVE "TTS fail" eff

/-- Model of `StateManager._handle_tour_request` (lines 312-340). -/
def handle_tour_request (st : SMState) (out : WorkerOutcome) :
    SMState × List Effect :=
  match out with
  | WorkerOutcome.raised =>
      workerFinally st AppState.ACTIVE "Tour proc error"
        [Effect.speak "Looking..." none,
         Effect.speak "Error preparing tour." none]
  | WorkerOutcome.normal response speak_ok =>
      let is_err := ai_manager_error_indicators_attr.any
        (fun i => pyStartsWith response i)
      let eff := [Effect.speak "Looking..." none, Effect.speak response none]
      if speak_ok ∧ ¬ is_err then
        workerFinally (add_to_conversation st "assistant" response)
          AppState.WAITING "Tour provided"
          (eff ++ [Effect.speak "More questions?" none])
      else if is_err then
        workerFinally st AppState.ACTIVE "AI error tour" eff
      else
        workerFinally st AppState.ACTIVE "TTS fail" eff

/-- Model of `StateManager._handle_general_question` (lines 342-366). -/
def handle_general_question (st : SMState) (_question : String)
    (out : WorkerOutcome) : SMState × List Effect :=
  match out with
  | WorkerOutcome.raised =>
      workerFinally st AppState.ACTIVE "Question error"
        [Effect.speak "Trouble processing." none]
  | WorkerOutcome.normal response speak_ok =>
      let is_err := ai_manager_error_indicators_attr.any
        (fun i => pyStartsWith response i)
      let eff := [Effect.speak response none]
      if speak_ok ∧ ¬ is_err then
        workerFinally (add_to_conversation st "assistant" response)
          AppState.WAITING "Question answered"
          (eff ++ [Effect.speak "More questions?" none])
      else if is_err then
        workerFinally st AppState.ACTIVE "AI error question" eff
      else
        workerFinally st AppState.ACTIVE "TTS fail" eff

/-! ## NavigationManager destination tracking (`navigation.py`) -/

/-- Telemetry record returned by `sim_server.get_aircraft_data()`; a
missing key gives `none`. -/
structure FlightData where
  latitude : Option ℚ
  longitude : Option ℚ
  heading : Option ℚ
  groundSpeed : Option ℚ
deriving DecidableEq, Repr

/-- Tracking fields of `NavigationManager`. -/
structure TrackState where
  tracking_enabled : Bool
  destination_name : String
  destination_lat : Option ℚ
  destination_lon : Option ℚ
deriving DecidableEq, Repr

/-- Constant `arrival_threshold` (navigation.py line 52), nautical miles. -/
def arrival_threshold : ℚ := 1 / 2

/-- Constant `off_course_threshold` (navigation.py line 53), degrees. -/
def off_course_threshold : ℚ := 15

/-- Callback events fired by `_check_destination_progress` at a
registered listener. -/
inductive NavEvent where
  | onArrival (dest : String)
  | onOneMinuteAway (dest : String) (distance : ℚ)
  | onOffCourse (current target diff : ℚ)
  | onUpdate (distance heading eta : ℚ)
deriving DecidableEq, Repr

/-- Python float `%` (and real `fmod` with positive modulus):
`x - y * floor (x / y)`. -/
def qmod (x y : ℚ) : ℚ := x - y * ((x / y).floor : ℚ)

/-- Python falsiness of an optional float (`not self.destination_lat`):
true when the value is `None` or `0.0`. -/
def isFalsyQ : Option ℚ → Bool
  | none => true
  | some x => x = 0

/-- Model of `NavigationManager._check_destination_progress` (navigation.py lines
242-311) for a single registered listener.  `fd` is the telemetry
snapshot (`none` when `get_aircraft_data()` returned nothing) and `geo`
abstracts `geo_utils.calculate_heading_distance`, returning
`(target_heading, distance)` or `none` on failure.  Returns the updated
tracking state and the events fired on this tick. -/
def check_destination_progress (st : TrackState) (fd : Option FlightData)
    (geo : ℚ → ℚ → ℚ → ℚ → Option (ℚ × ℚ)) : TrackState × List NavEvent :=
  if ¬ st.tracking_enabled ∨ isFalsyQ st.destination_lat ∨
     isFalsyQ st.destination_lon then (st, [])
  else
    match fd with
    | none => (st, [])
    | some fd =>
      match fd.latitude, fd.longitude with
      | some current_lat, some current_lon =>
        let ground_speed := fd.groundSpeed.getD 120
        match geo current_lat current_lon (st.destination_lat.getD 0)
            (st.destination_lon.getD 0) with
        | none => (st, [])
        | some (target_heading, distance) =>
          let time_to_destination :=
            if ground_speed > 0 then distance / ground_speed * 60 else 0
          if distance ≤ arrival_threshold then
            ({ st with tracking_enabled := false },
             [NavEvent.onArrival st.destination_name])
          else
            let e1 :=
              if 9 / 10 ≤ time_to_destination ∧ time_to_destination ≤ 11 / 10 then
                [NavEvent.onOneMinuteAway st.destination_name distance]
              else []
            let e2 :=
              match fd.heading with
              | some current_heading =>
                let heading_difference :=
                  |qmod (target_heading - current_heading + 180) 360 - 180|
                if heading_difference > off_course_threshold then
                  [NavEvent.onOffCourse current_heading target_heading
                     heading_difference]
                else []
              | none => []
            (st, e1 ++ e2 ++
              [NavEvent.onUpdate distance target_heading time_to_destination])
      | _, _ => (st, [])

/-- The signed minimal angular difference between a current heading and
a target heading, as the spec describes it:
`((target - current + 180) % 360) - 180`.  (Spec-level definition: the
source computes only the absolute value of this quantity, at
navigation.py line 298.) -/
def off_course_difference (current target : ℚ) : ℚ :=
  qmod (target - current + 180) 360 - 180

/-! ## GeoUtils great-circle math (`geo_utils.py`), over the reals -/

/-- Real counterpart of `qmod`: Python float `%` with positive modulus. -/
noncomputable def rmod (x y : ℝ) : ℝ := x - y * (⌊x / y⌋ : ℝ)

/-- C/Python `math.atan2 y x`: the angle of the point `(x, y)` in
`(-π, π]` (with `atan2 0 0 = 0`). -/
noncomputable def atan2 (y x : ℝ) : ℝ :=
  if 0 < x then Real.arctan (y / x)
  else if x < 0 ∧ 0 ≤ y then Real.arctan (y / x) + Real.pi
  else if x < 0 then Real.arctan (y / x) - Real.pi
  else if 0 < y then Real.pi / 2
  else if y < 0 then -(Real.pi / 2)
  else 0

/-- The haversine intermediate `a` of
`GeoUtils.calculate_heading_distance` (local variable `a`, geo_utils.py
line 256), with the degree-to-radian conversions of its inputs and the
differences `dlat`, `dlon` inlined. -/
noncomputable def haversine_a (lat1 lon1 lat2 lon2 : ℝ) : ℝ :=
  Real.sin ((lat2 * Real.pi / 180 - lat1 * Real.pi / 180) / 2) ^ 2 +
    Real.cos (lat1 * Real.pi / 180) * Real.cos (lat2 * Real.pi / 180) *
      Real.sin ((lon2 * Real.pi / 180 - lon1 * Real.pi / 180) / 2) ^ 2

/-- The initial-bearing computation of `calculate_heading_distance`
(local variable `heading`, geo_utils.py lines 247-251): `atan2 y x` in
degrees, normalised by `(heading + 360) % 360`. -/
noncomputable def initial_bearing (lat1 lon1 lat2 lon2 : ℝ) : ℝ :=
  rmod (atan2
      (Real.sin (lon2 * Real.pi / 180 - lon1 * Real.pi / 180) *
        Real.cos (lat2 * Real.pi / 180))
      (Real.cos (lat1 * Real.pi / 180) * Real.sin (lat2 * Real.pi / 180) -
        Real.sin (lat1 * Real.pi / 180) * Real.cos (lat2 * Real.pi / 180) *
          Real.cos (lon2 * Real.pi / 180 - lon1 * Real.pi / 180)) *
      180 / Real.pi + 360) 360

/-- Model of `GeoUtils.calculate_heading_distance` (geo_utils.py lines 230-263):
initial great-circle bearing (degrees, normalised to `[0, 360)`) and
haversine distance (nautical miles, Earth radius 3440.1).  The Python
function `math.sqrt` raises on a negative argument and the `except` clause then
returns `(None, None)`; the guard below reproduces that domain check. -/
noncomputable def calculate_heading_distance (lat1 lon1 lat2 lon2 : ℝ) :
    Option (ℝ × ℝ) :=
  if haversine_a lat1 lon1 lat2 lon2 < 0 ∨
     1 - haversine_a lat1 lon1 lat2 lon2 < 0 then none
  else
    some (initial_bearing lat1 lon1 lat2 lon2,
      3440.1 * (2 * atan2 (Real.sqrt (haversine_a lat1 lon1 lat2 lon2))
        (Real.sqrt (1 - haversine_a lat1 lon1 lat2 lon2))))

/-! ## GeoUtils.geocode (`geo_utils.py`) -/

/-- The caches and external services `GeoUtils.geocode` consults, in
order. -/
inductive GeoLookup where
  | memCacheHit
  | dbLookup
  | networkCall
deriving DecidableEq, Repr

/-- Insertion into the in-memory geocode cache (geo_utils.py lines
124-127 and 146-148): when at capacity, `pop(next(iter(...)))` evicts
the oldest-inserted entry; then the new binding is appended. -/
def cacheInsert (maxSize : Nat) (cache : List (String × ℚ × ℚ))
    (query : String) (lat lon : ℚ) : List (String × ℚ × ℚ) :=
  let cache := if maxSize ≤ cache.length then cache.drop 1 else cache
  cache ++ [(query, lat, lon)]

/-- Model of `GeoUtils.geocode` (geo_utils.py lines 88-168).  The in-memory dict
`geo_cache` is an insertion-ordered association list; `db` abstracts the
SQLite `geocode_cache` table and `net` the Nominatim geocoder (both
keyed by the query they are given; `none` = miss/failure).  Returns the
`(latitude, longitude, display_name)` triple, the updated in-memory
cache, and the trace of lookups performed. -/
def geocode (maxSize : Nat) (mem : List (String × ℚ × ℚ))
    (db : String → Option (ℚ × ℚ × String))
    (net : String → Option (ℚ × ℚ × String))
    (location_name : Option String) (country_hint : Option String) :
    (Option ℚ × Option ℚ × Option String) × List (String × ℚ × ℚ) ×
      List GeoLookup :=
  match location_name with
  | none => ((none, none, none), mem, [])
  | some nm =>
    if nm = "" then ((none, none, none), mem, [])
    else
      let query := pyStrip (pyLower nm)
      match mem.find? (fun e => e.1 == query) with
      | some (_, lat, lon) =>
          ((some lat, some lon, some query), mem, [GeoLookup.memCacheHit])
      | none =>
        match db query with
        | some (lat, lon, display_name) =>
            ((some lat, some lon, some display_name),
             cacheInsert maxSize mem query lat lon, [GeoLookup.dbLookup])
        | none =>
          let geocode_query :=
            match country_hint with
            | some ch => query ++ ", " ++ ch
            | none => query
          match net geocode_query with
          | some (lat, lon, display_name) =>
              ((some lat, some lon, some display_name),
               cacheInsert maxSize mem query lat lon,
               [GeoLookup.dbLookup, GeoLookup.networkCall])
          | none =>
              ((none, none, none), mem,
               [GeoLookup.dbLookup, GeoLookup.networkCall])

/-! ## Theorems for the claims -/

/-- Claim C4: calling `change_state s` when the current state is already
`s` is a no-op — the state record (including `current_state`,
`previous_state` and `state_change_time`) is returned unchanged and no
effect is produced: no callback fires, no transition is logged. -/
theorem change_state_self_noop (st : SMState) (s : AppState)
    (reason : Option String) (h : st.current_state = s) :
    change_state st s reason = (st, []) := by
  simp [change_state, h]

/-- Witness for C4 at a concrete state. -/
theorem change_state_self_noop_witness :
    initState.current_state = AppState.STANDBY ∧
      change_state initState AppState.STANDBY none = (initState, []) :=
  ⟨rfl, change_state_self_noop initState AppState.STANDBY none rfl⟩

/-- Claim C1: a command submitted while the current state is
`PROCESSING`, `NAVIGATION`, `TOURING`, `RESPONDING` or `ERROR` is not
handled (`handle_command` returns `false`) and the whole state record —
in particular `current_state`, `last_destination`, `last_dest_lat`,
`last_dest_lon` and the conversation buffer — is unchanged. -/
theorem busy_state_drops_command (st : SMState) (cmd : String)
    (h : st.current_state = AppState.PROCESSING ∨
         st.current_state = AppState.NAVIGATION ∨
         st.current_state = AppState.TOURING ∨
         st.current_state = AppState.RESPONDING ∨
         st.current_state = AppState.ERROR) :
    (handle_command st cmd).1 = false ∧ (handle_command st cmd).2.1 = st := by
  by_cases hj : isJunk cmd <;>
    rcases h with h | h | h | h | h <;>
      simp [handle_command, hj, h]

/-- Witness for C1 at a concrete state and command. -/
theorem busy_state_drops_command_witness :
    (handle_command { initState with current_state := AppState.PROCESSING }
        "take me to the alamo").1 = false ∧
      (handle_command { initState with current_state := AppState.PROCESSING }
        "take me to the alamo").2.1 =
        { initState with current_state := AppState.PROCESSING } :=
  busy_state_drops_command _ _ (Or.inl rfl)

/-- Claim C5: a command that is empty after trimming, shorter than 3
characters after trimming, or whose lowercased trimmed form is one of
`junk_exact` or starts with one of `junk_phrases`, is not handled and
leaves the state record (so in particular `current_state` and the
conversation buffer) unchanged, whatever the current state is. -/
theorem junk_command_dropped (st : SMState) (cmd : String)
    (h : pyStrip cmd = "" ∨ (pyStrip cmd).data.length < 3 ∨
         junk_exact.any (fun j => j == pyLower (pyStrip cmd)) = true ∨
         junk_phrases.any
           (fun p => pyStartsWith (pyLower (pyStrip cmd)) p) = true) :
    (handle_command st cmd).1 = false ∧ (handle_command st cmd).2.1 = st := by
  have hj : isJunk cmd = true := by
    show (if pyStrip cmd = "" ∨ (pyStrip cmd).data.length < 3 then true
          else if (junk_exact.any fun j => j == pyLower (pyStrip cmd)) = true
            then true
          else junk_phrases.any
            (fun phrase => pyStartsWith (pyLower (pyStrip cmd)) phrase)) = true
    by_cases h1 : pyStrip cmd = "" ∨ (pyStrip cmd).data.length < 3
    · rw [if_pos h1]
    · rw [if_neg h1]
      by_cases h2 : (junk_exact.any fun j => j == pyLower (pyStrip cmd)) = true
      · rw [if_pos h2]
      · rw [if_neg h2]
        rcases h with h | h | h | h
        · exact absurd (Or.inl h) h1
        · exact absurd (Or.inr h) h1
        · exact absurd h h2
        · exact h
  simp [handle_command, hj]

/-- Witness for C5: the junk phrase "more questions?" in state `ACTIVE`. -/
theorem junk_command_dropped_witness :
    (handle_command { initState with current_state := AppState.ACTIVE }
        "more questions?").1 = false ∧
      (handle_command { initState with current_state := AppState.ACTIVE }
        "more questions?").2.1 =
        { initState with current_state := AppState.ACTIVE } :=
  junk_command_dropped _ _ (Or.inr (Or.inr (Or.inr (by decide))))

/-- Counterexample to claim C2 as stated: with the state manager in
`WAITING`, the input "no" is rejected by the junk filter (its trimmed
length is 2 < 3) before the negative-acknowledgement routing is ever
consulted, so `handle_command` returns `false`, nothing transitions to
`STANDBY`, and `stop_continuous_listening` is never called. -/
theorem waiting_no_is_junk :
    (handle_command { initState with current_state := AppState.WAITING }
        "no").1 = false ∧
      (handle_command { initState with current_state := AppState.WAITING }
        "no").2.1.current_state = AppState.WAITING ∧
      Effect.stopListening ∉
        (handle_command { initState with current_state := AppState.WAITING }
          "no").2.2 := by
  decide

/-- Claim C2 as amended: from `WAITING`, the negative acknowledgements
that survive the junk filter (such as "stop", and the that-is-all
phrase) transition to
`STANDBY`, call `stop_continuous_listening` exactly once and are
handled (`true`); the bare input "no" is dropped by the length-3 junk
filter and leaves the state unchanged. -/
theorem waiting_negative_ack (st : SMState)
    (hst : st.current_state = AppState.WAITING)
    (cmd : String) (hcmd : cmd = "stop" ∨ cmd = "that\x27s all") :
    (handle_command st cmd).1 = true ∧
      (handle_command st cmd).2.1.current_state = AppState.STANDBY ∧
      (handle_command st cmd).2.2.count Effect.stopListening = 1 ∧
      (handle_command st "no").1 = false ∧ (handle_command st "no").2.1 = st := by
  rcases hcmd with hcmd | hcmd <;> subst hcmd <;>
    simp +decide [handle_command, change_state, isJunk, hst, List.count_replicate]

/-- Witness for the amended C2 at a concrete state. -/
theorem waiting_negative_ack_witness :
    (handle_command { initState with current_state := AppState.WAITING }
        "stop").1 = true ∧
      (handle_command { initState with current_state := AppState.WAITING }
        "stop").2.1.current_state = AppState.STANDBY ∧
      (handle_command { initState with current_state := AppState.WAITING }
        "stop").2.2.count Effect.stopListening = 1 ∧
      (handle_command { initState with current_state := AppState.WAITING }
        "no").1 = false ∧
      (handle_command { initState with current_state := AppState.WAITING }
        "no").2.1 = { initState with current_state := AppState.WAITING } :=
  waiting_negative_ack _ rfl _ (Or.inl rfl)

/-- The state a worker handler transitions to is the `next` value passed
to its shared `finally` block. -/
theorem workerFinally_state (st : SMState) (next : AppState) (r : String)
    (eff : List Effect) :
    (workerFinally st next r eff).1.current_state = next := by
  unfold workerFinally change_state
  by_cases h : next = st.current_state <;> simp [h]

/-- When the `finally` block targets `ACTIVE` or `WAITING`, it emits a
`startListening` effect. -/
theorem workerFinally_listens (st : SMState) (next : AppState) (r : String)
    (eff : List Effect)
    (h : next = AppState.ACTIVE ∨ next = AppState.WAITING) :
    Effect.startListening ∈ (workerFinally st next r eff).2 := by
  rcases h with h | h <;> subst h <;>
    simp [workerFinally]

/-- Claim C3: for each worker command handler
(`_handle_where_am_i_with_tour`, `_handle_navigation_request`,
`_handle_tour_request`, `_handle_general_question`) and every execution
path — success, AI-error response, speech-synthesis failure, or raised
exception — whenever the state the handler finally transitions to is
`ACTIVE` or `WAITING`, a `start_continuous_listening` call appears in
the effect trace of the handler (emitted by its `finally` block), so
listening resumes. -/
theorem worker_handlers_resume_listening :
    (∀ st out,
      ((handle_where_am_i st out).1.current_state = AppState.ACTIVE ∨
       (handle_where_am_i st out).1.current_state = AppState.WAITING) →
      Effect.startListening ∈ (handle_where_am_i st out).2) ∧
    (∀ st out,
      ((handle_navigation_request st out).1.current_state = AppState.ACTIVE ∨
       (handle_navigation_request st out).1.current_state = AppState.WAITING) →
      Effect.startListening ∈ (handle_navigation_request st out).2) ∧
    (∀ st out,
      ((handle_tour_request st out).1.current_state = AppState.ACTIVE ∨
       (handle_tour_request st out).1.current_state = AppState.WAITING) →
      Effect.startListening ∈ (handle_tour_request st out).2) ∧
    (∀ st q out,
      ((handle_general_question st q out).1.current_state = AppState.ACTIVE ∨
       (handle_general_question st q out).1.current_state = AppState.WAITING) →
      Effect.startListening ∈ (handle_general_question st q out).2) := by
  refine ⟨fun st out _ => ?_, fun st out _ => ?_, fun st out _ => ?_,
    fun st q out _ => ?_⟩
  · cases out
    · exact workerFinally_listens _ _ _ _ (by simp)
    · dsimp only [handle_where_am_i]
      split
      · exact workerFinally_listens _ _ _ _ (by simp)
      · split <;> exact workerFinally_listens _ _ _ _ (by simp)
  · cases out
    · exact workerFinally_listens _ _ _ _ (by simp)
    · dsimp only [handle_navigation_request]
      split
      · exact workerFinally_listens _ _ _ _ (by simp)
      · split <;> exact workerFinally_listens _ _ _ _ (by simp)
  · cases out
    · exact workerFinally_listens _ _ _ _ (by simp)
    · dsimp only [handle_tour_request]
      split
      · exact workerFinally_listens _ _ _ _ (by simp)
      · split <;> exact workerFinally_listens _ _ _ _ (by simp)
  · cases out
    · exact workerFinally_listens _ _ _ _ (by simp)
    · dsimp only [handle_general_question]
      split
      · exact workerFinally_listens _ _ _ _ (by simp)
      · split <;> exact workerFinally_listens _ _ _ _ (by simp)

/-- Witness for C3: the general-question handler on a successful run
ends in `WAITING` and its trace restarts listening. -/
theorem worker_handlers_resume_listening_witness :
    ((handle_general_question
        { initState with current_state := AppState.PROCESSING } "q"
        (WorkerOutcome.normal "All clear." true)).1.current_state =
      AppState.ACTIVE ∨
     (handle_general_question
        { initState with current_state := AppState.PROCESSING } "q"
        (WorkerOutcome.normal "All clear." true)).1.current_state =
      AppState.WAITING) ∧
    Effect.startListening ∈
      (handle_general_question
        { initState with current_state := AppState.PROCESSING } "q"
        (WorkerOutcome.normal "All clear." true)).2 :=
  ⟨by decide,
   worker_handlers_resume_listening.2.2.2 _ "q" _ (by decide)⟩

/-- Claim C6 is a code bug: `_handle_general_question` reads
`getattr(ai_manager, "error_indicators", [])`, but `error_indicators`
is a local variable of `AIManager.generate_response`, never an
attribute of the manager, so the handler tests the response against the
empty list.  The AI error response "Authentication failed for OpenAI.
Please check your API key." does start with a known error prefix of
`AIManager`, yet the handler classifies it as a success: it appends it
to the conversation buffer and transitions to `WAITING`, not `ACTIVE`. -/
theorem error_prefix_not_detected :
    error_indicators.any
      (fun i => pyStartsWith
        "Authentication failed for OpenAI. Please check your API key." i) =
      true ∧
    (handle_general_question
        { initState with current_state := AppState.PROCESSING } "q"
        (WorkerOutcome.normal
          "Authentication failed for OpenAI. Please check your API key."
          true)).1.current_state = AppState.WAITING ∧
    Msg.mk "assistant"
        "Authentication failed for OpenAI. Please check your API key." ∈
      (handle_general_question
        { initState with current_state := AppState.PROCESSING } "q"
        (WorkerOutcome.normal
          "Authentication failed for OpenAI. Please check your API key."
          true)).1.conversation_context := by
  decide

/-- Counterexample to claim C7 as stated: on an arrival tick the handler
returns right after firing `on_arrival`, so the generic `on_update`
callback does not fire on that tick (and neither does
`on_one_minute_away`, even though the estimated time to arrival,
0.4 nm at 24 knots = 1.0 min, lies inside the [0.9, 1.1] window).
The claim that `on_update` "fires on every tick regardless" is false. -/
theorem arrival_tick_skips_update :
    (check_destination_progress
      { tracking_enabled := true, destination_name := "Golden Gate Bridge",
        destination_lat := some 37, destination_lon := some (-122) }
      (some { latitude := some 37, longitude := some (-122),
              heading := some 90, groundSpeed := some 24 })
      (fun _ _ _ _ => some (90, 2/5))).2 =
      [NavEvent.onArrival "Golden Gate Bridge"] ∧
    ((check_destination_progress
      { tracking_enabled := true, destination_name := "Golden Gate Bridge",
        destination_lat := some 37, destination_lon := some (-122) }
      (some { latitude := some 37, longitude := some (-122),
              heading := some 90, groundSpeed := some 24 })
      (fun _ _ _ _ => some (90, 2/5))).2.any
        (fun e => match e with
          | NavEvent.onUpdate _ _ _ => true
          | _ => false)) = false ∧
    (2 : ℚ) / 5 ≤ 1 / 2 ∧
    (9 : ℚ) / 10 ≤ 2 / 5 / 24 * 60 ∧ (2 : ℚ) / 5 / 24 * 60 ≤ 11 / 10 := by
  with_unfolding_all decide

/-- Claim C7 as amended: on a tracking tick with valid position data,
(1) when the computed distance is at most the 0.5 nm arrival threshold,
`on_arrival` fires, tracking terminates (`tracking_enabled` becomes
false, which ends the loop) and it is the only callback of the tick;
(2) when the distance exceeds the threshold and the estimated time to
arrival (distance / ground speed * 60) lies in [0.9, 1.1] minutes,
`on_one_minute_away` fires; and (3) `on_update` fires on every
non-arrival tick (the arrival branch returns before reaching it). -/
theorem tracking_tick_callbacks (st : TrackState) (fd : FlightData)
    (geo : ℚ → ℚ → ℚ → ℚ → Option (ℚ × ℚ)) (clat clon th d : ℚ)
    (hen : st.tracking_enabled = true)
    (hlat : isFalsyQ st.destination_lat = false)
    (hlon : isFalsyQ st.destination_lon = false)
    (hfdlat : fd.latitude = some clat) (hfdlon : fd.longitude = some clon)
    (hgeo : geo clat clon (st.destination_lat.getD 0)
      (st.destination_lon.getD 0) = some (th, d)) :
    (d ≤ 1 / 2 →
      (check_destination_progress st (some fd) geo).2 =
        [NavEvent.onArrival st.destination_name] ∧
      (check_destination_progress st (some fd) geo).1.tracking_enabled =
        false) ∧
    (1 / 2 < d → 0 < fd.groundSpeed.getD 120 →
      9 / 10 ≤ d / fd.groundSpeed.getD 120 * 60 →
      d / fd.groundSpeed.getD 120 * 60 ≤ 11 / 10 →
      NavEvent.onOneMinuteAway st.destination_name d ∈
        (check_destination_progress st (some fd) geo).2) ∧
    (1 / 2 < d →
      NavEvent.onUpdate d th
          (if 0 < fd.groundSpeed.getD 120
            then d / fd.groundSpeed.getD 120 * 60 else 0) ∈
        (check_destination_progress st (some fd) geo).2) := by
  have hun : check_destination_progress st (some fd) geo =
      (if d ≤ arrival_threshold then
        ({ st with tracking_enabled := false },
         [NavEvent.onArrival st.destination_name])
       else
        (st,
          (if 9 / 10 ≤ (if 0 < fd.groundSpeed.getD 120
                then d / fd.groundSpeed.getD 120 * 60 else 0) ∧
              (if 0 < fd.groundSpeed.getD 120
                then d / fd.groundSpeed.getD 120 * 60 else 0) ≤ 11 / 10 then
            [NavEvent.onOneMinuteAway st.destination_name d]
           else []) ++
          (match fd.heading with
           | some current_heading =>
             if off_course_threshold <
                 |qmod (th - current_heading + 180) 360 - 180| then
               [NavEvent.onOffCourse current_heading th
                  |qmod (th - current_heading + 180) 360 - 180|]
             else []
           | none => []) ++
          [NavEvent.onUpdate d th
            (if 0 < fd.groundSpeed.getD 120
              then d / fd.groundSpeed.getD 120 * 60 else 0)])) := by
    unfold check_destination_progress
    rw [if_neg (by simp [hen, hlat, hlon])]
    dsimp only
    rw [hfdlat, hfdlon]
    dsimp only
    rw [hgeo]
  refine ⟨fun harr => ?_, fun hfar hgs h1 h2 => ?_, fun hfar => ?_⟩
  · rw [hun, if_pos (by simpa [arrival_threshold] using harr)]
    exact ⟨rfl, rfl⟩
  · rw [hun, if_neg (by simp only [arrival_threshold]; exact not_le.mpr hfar)]
    simp only [List.mem_append]
    exact Or.inl (Or.inl (by rw [if_pos ⟨by rw [if_pos hgs]; exact h1,
      by rw [if_pos hgs]; exact h2⟩]; simp))
  · rw [hun, if_neg (by simp only [arrival_threshold]; exact not_le.mpr hfar)]
    simp

/-- Witness for the amended C7: a non-arrival tick at 2 nm and 120
knots (estimated time to arrival exactly 1 minute) fires both
`on_one_minute_away` and `on_update`. -/
theorem tracking_tick_callbacks_witness :
    NavEvent.onOneMinuteAway "Statue of Liberty" 2 ∈
      (check_destination_progress
        { tracking_enabled := true, destination_name := "Statue of Liberty",
          destination_lat := some 40, destination_lon := some (-74) }
        (some { latitude := some 41, longitude := some (-74),
                heading := some 180, groundSpeed := some 120 })
        (fun _ _ _ _ => some (180, 2))).2 ∧
    NavEvent.onUpdate 2 180
        (if (0:ℚ) < 120 then (2:ℚ) / 120 * 60 else 0) ∈
      (check_destination_progress
        { tracking_enabled := true, destination_name := "Statue of Liberty",
          destination_lat := some 40, destination_lon := some (-74) }
        (some { latitude := some 41, longitude := some (-74),
                heading := some 180, groundSpeed := some 120 })
        (fun _ _ _ _ => some (180, 2))).2 :=
  ⟨(tracking_tick_callbacks _ _ _ 41 (-74) 180 2 rfl
      (by with_unfolding_all decide) (by with_unfolding_all decide) rfl rfl
      rfl).2.1
    (by with_unfolding_all decide) (by with_unfolding_all decide)
    (by with_unfolding_all decide) (by with_unfolding_all decide),
   (tracking_tick_callbacks _ _ _ 41 (-74) 180 2 rfl
      (by with_unfolding_all decide) (by with_unfolding_all decide) rfl rfl
      rfl).2.2
    (by with_unfolding_all decide)⟩

/-- Claim C8: the spec-level signed minimal angular difference
`off_course_difference (current, target) = ((target - current + 180) %
360) - 180` satisfies `off_course_difference 350 10 = 20` and
`off_course_difference 10 350 = -20`, and on a non-arrival tracking
tick with a known current heading the `on_off_course` callback fires
exactly when the absolute value of this difference exceeds the
15-degree threshold (the source computes precisely this absolute value
at navigation.py line 298). -/
theorem off_course_signed_difference :
    off_course_difference 350 10 = 20 ∧
    off_course_difference 10 350 = -20 ∧
    ∀ (st : TrackState) (fd : FlightData)
      (geo : ℚ → ℚ → ℚ → ℚ → Option (ℚ × ℚ)) (clat clon th d ch : ℚ),
      st.tracking_enabled = true →
      isFalsyQ st.destination_lat = false →
      isFalsyQ st.destination_lon = false →
      fd.latitude = some clat → fd.longitude = some clon →
      fd.heading = some ch →
      geo clat clon (st.destination_lat.getD 0)
        (st.destination_lon.getD 0) = some (th, d) →
      1 / 2 < d →
      (NavEvent.onOffCourse ch th |off_course_difference ch th| ∈
          (check_destination_progress st (some fd) geo).2 ↔
        15 < |off_course_difference ch th|) := by
  refine ⟨by with_unfolding_all decide, by with_unfolding_all decide,
    fun st fd geo clat clon th d ch hen hlat hlon hfdlat hfdlon hfdh hgeo
      hfar => ?_⟩
  have hun : (check_destination_progress st (some fd) geo).2 =
      (if 9 / 10 ≤ (if 0 < fd.groundSpeed.getD 120
            then d / fd.groundSpeed.getD 120 * 60 else 0) ∧
          (if 0 < fd.groundSpeed.getD 120
            then d / fd.groundSpeed.getD 120 * 60 else 0) ≤ 11 / 10 then
        [NavEvent.onOneMinuteAway st.destination_name d]
       else []) ++
      (if off_course_threshold < |qmod (th - ch + 180) 360 - 180| then
        [NavEvent.onOffCourse ch th |qmod (th - ch + 180) 360 - 180|]
       else []) ++
      [NavEvent.onUpdate d th
        (if 0 < fd.groundSpeed.getD 120
          then d / fd.groundSpeed.getD 120 * 60 else 0)] := by
    unfold check_destination_progress
    rw [if_neg (by simp [hen, hlat, hlon])]
    dsimp only
    rw [hfdlat, hfdlon]
    dsimp only
    rw [hgeo]
    dsimp only
    rw [hfdh, if_neg (by simp only [arrival_threshold]; exact not_le.mpr hfar)]
  rw [hun]
  constructor
  · intro hmem
    simp only [List.mem_append, List.mem_singleton] at hmem
    rcases hmem with (hmem | hmem) | hmem
    · split at hmem <;> simp_all
    · by_cases hoff : off_course_threshold < |qmod (th - ch + 180) 360 - 180|
      · simpa [off_course_threshold, off_course_difference] using hoff
      · rw [if_neg hoff] at hmem; simp at hmem
    · simp at hmem
  · intro hgt
    simp only [List.mem_append]
    refine Or.inl (Or.inr ?_)
    rw [if_pos (by simpa [off_course_threshold, off_course_difference]
      using hgt)]
    simp [off_course_difference]

/-- Witness for C8: heading 0 with target bearing 90 gives a signed
difference of 90, and the off-course callback fires on that tick. -/
theorem off_course_signed_difference_witness :
    NavEvent.onOffCourse 0 90 |off_course_difference 0 90| ∈
      (check_destination_progress
        { tracking_enabled := true, destination_name := "X",
          destination_lat := some 40, destination_lon := some (-74) }
        (some { latitude := some 41, longitude := some (-74),
                heading := some 0, groundSpeed := some 120 })
        (fun _ _ _ _ => some (90, 30))).2 :=
  (off_course_signed_difference.2.2
    { tracking_enabled := true, destination_name := "X",
      destination_lat := some 40, destination_lon := some (-74) }
    { latitude := some 41, longitude := some (-74),
      heading := some 0, groundSpeed := some 120 }
    (fun _ _ _ _ => some (90, 30)) 41 (-74) 90 30 0 rfl
    (by with_unfolding_all decide) (by with_unfolding_all decide) rfl rfl rfl
    rfl (by with_unfolding_all decide)).mpr
    (by with_unfolding_all decide)

/-- Claim C10: when the lowercased, trimmed form of `location_name` is a
key of the in-memory geocode cache, `geocode` answers from that cache:
it returns the cached latitude and longitude with the normalized query
string itself — not a canonical display name — as the third element;
and `geocode` of a `None` or empty `location_name` returns
`(None, None, None)` without consulting any cache or the network. -/
theorem geocode_cache_hit (maxSize : Nat) (mem : List (String × ℚ × ℚ))
    (db net : String → Option (ℚ × ℚ × String))
    (nm k : String) (lat lon : ℚ) (hint : Option String)
    (hne : nm ≠ "")
    (hm : mem.find? (fun e => e.1 == pyStrip (pyLower nm)) =
      some (k, lat, lon)) :
    (geocode maxSize mem db net (some nm) hint).1 =
      (some lat, some lon, some (pyStrip (pyLower nm))) ∧
    (geocode maxSize mem db net (some nm) hint).2.2 =
      [GeoLookup.memCacheHit] ∧
    geocode maxSize mem db net none hint = ((none, none, none), mem, []) ∧
    geocode maxSize mem db net (some "") hint =
      ((none, none, none), mem, []) := by
  refine ⟨?_, ?_, rfl, by simp [geocode]⟩ <;>
    simp [geocode, hne, hm]

/-- Witness for C10: a cache seeded like `geo_cache` in `GeoUtils`
serves "The Alamo " (mixed case, trailing blank) from memory with the
normalized query as display name. -/
theorem geocode_cache_hit_witness :
    (geocode 50 [("the alamo", 29, -98)] (fun _ => none) (fun _ => none)
        (some "The Alamo ") none).1 =
      (some 29, some (-98), some (pyStrip (pyLower "The Alamo "))) ∧
    (geocode 50 [("the alamo", 29, -98)] (fun _ => none) (fun _ => none)
        (some "The Alamo ") none).2.2 = [GeoLookup.memCacheHit] ∧
    geocode 50 [("the alamo", 29, -98)] (fun _ => none) (fun _ => none)
        none none = ((none, none, none), [("the alamo", 29, -98)], []) ∧
    geocode 50 [("the alamo", 29, -98)] (fun _ => none) (fun _ => none)
        (some "") none = ((none, none, none), [("the alamo", 29, -98)], []) :=
  geocode_cache_hit 50 _ _ _ "The Alamo " "the alamo" 29 (-98) none
    (by decide) (by with_unfolding_all decide)

/-- The value `rmod x 360` always lies in `[0, 360)`. -/
theorem rmod_360_mem (x : ℝ) : 0 ≤ rmod x 360 ∧ rmod x 360 < 360 := by
  have hfr : rmod x 360 = 360 * Int.fract (x / 360) := by
    unfold rmod Int.fract
    field_simp
  constructor
  · rw [hfr]
    exact mul_nonneg (by norm_num) (Int.fract_nonneg _)
  · rw [hfr]
    have h1 := Int.fract_lt_one (x / 360)
    nlinarith [Int.fract_nonneg (x / 360)]

/-- Reduction of `rmod 360 360` to zero. -/
theorem rmod_360_360 : rmod 360 360 = 0 := by
  unfold rmod
  norm_num [Int.floor_one]

/-- Evaluation of `math.atan2 0 x` for positive `x`. -/
theorem atan2_zero_pos (x : ℝ) (hx : 0 < x) : atan2 0 x = 0 := by
  unfold atan2
  rw [if_pos hx, zero_div, Real.arctan_zero]

/-- Evaluation of `math.atan2 0 0`. -/
theorem atan2_zero_zero : atan2 0 0 = 0 := by
  unfold atan2
  norm_num

/-- The haversine intermediate vanishes from a point to itself. -/
theorem haversine_a_self (lat lon : ℝ) : haversine_a lat lon lat lon = 0 := by
  unfold haversine_a
  rw [sub_self, sub_self]
  simp

/-- The haversine intermediate is symmetric in the two coordinates. -/
theorem haversine_a_symm (lat1 lon1 lat2 lon2 : ℝ) :
    haversine_a lat2 lon2 lat1 lon1 = haversine_a lat1 lon1 lat2 lon2 := by
  unfold haversine_a
  rw [show (lat1 * Real.pi / 180 - lat2 * Real.pi / 180) / 2 =
      -((lat2 * Real.pi / 180 - lat1 * Real.pi / 180) / 2) by ring,
    show (lon1 * Real.pi / 180 - lon2 * Real.pi / 180) / 2 =
      -((lon2 * Real.pi / 180 - lon1 * Real.pi / 180) / 2) by ring,
    Real.sin_neg, Real.sin_neg, neg_sq, neg_sq,
    mul_comm (Real.cos (lat2 * Real.pi / 180))
      (Real.cos (lat1 * Real.pi / 180))]

/-- Distance from a point to itself is zero. -/
theorem chd_self (lat lon : ℝ) :
    (calculate_heading_distance lat lon lat lon).map (fun p => p.2) =
      some 0 := by
  unfold calculate_heading_distance
  rw [haversine_a_self]
  rw [if_neg (by norm_num)]
  simp only [Option.map_some']
  rw [sub_zero, Real.sqrt_zero, Real.sqrt_one, atan2_zero_pos 1 one_pos]
  norm_num

/-- The distance component is symmetric in the two coordinates. -/
theorem chd_symm (lat1 lon1 lat2 lon2 : ℝ) :
    (calculate_heading_distance lat1 lon1 lat2 lon2).map (fun p => p.2) =
      (calculate_heading_distance lat2 lon2 lat1 lon1).map (fun p => p.2) := by
  unfold calculate_heading_distance
  rw [haversine_a_symm]
  by_cases hc : haversine_a lat2 lon2 lat1 lon1 < 0 ∨
      1 - haversine_a lat2 lon2 lat1 lon1 < 0
  · rw [if_pos hc, if_pos hc]
  · rw [if_neg hc, if_neg hc]
    simp only [Option.map_some']

/-- A returned heading is the `(h + 360) % 360` normalisation, hence in
`[0, 360)`. -/
theorem chd_heading_range (lat1 lon1 lat2 lon2 hd dist : ℝ)
    (heq : calculate_heading_distance lat1 lon1 lat2 lon2 = some (hd, dist)) :
    0 ≤ hd ∧ hd < 360 := by
  unfold calculate_heading_distance at heq
  by_cases hc : haversine_a lat1 lon1 lat2 lon2 < 0 ∨
      1 - haversine_a lat1 lon1 lat2 lon2 < 0
  · rw [if_pos hc] at heq
    exact absurd heq (by simp)
  · rw [if_neg hc, Option.some.injEq, Prod.mk.injEq] at heq
    rw [← heq.1]
    unfold initial_bearing
    exact rmod_360_mem _

/-- The bearing at the origin evaluates to zero. -/
theorem initial_bearing_zero : initial_bearing 0 0 0 0 = 0 := by
  unfold initial_bearing
  norm_num [atan2_zero_zero, rmod_360_360]

/-- Evaluation of the great-circle math at the origin. -/
theorem chd_at_zero : calculate_heading_distance 0 0 0 0 = some (0, 0) := by
  unfold calculate_heading_distance
  rw [haversine_a_self]
  rw [if_neg (by norm_num)]
  rw [initial_bearing_zero]
  rw [sub_zero, Real.sqrt_zero, Real.sqrt_one, atan2_zero_pos 1 one_pos]
  norm_num

/-- Claim C9: for all coordinate pairs, `calculate_heading_distance`
returns distance 0 from a point to itself, a distance symmetric under
swapping source and target (the heading need not be symmetric — only
the second component is compared), and a heading always normalised
into `[0, 360)`. -/
theorem heading_distance_properties (lat1 lon1 lat2 lon2 : ℝ) :
    ((calculate_heading_distance lat1 lon1 lat1 lon1).map (fun p => p.2) =
      some 0) ∧
    ((calculate_heading_distance lat1 lon1 lat2 lon2).map (fun p => p.2) =
      (calculate_heading_distance lat2 lon2 lat1 lon1).map (fun p => p.2)) ∧
    ∀ hd dist,
      calculate_heading_distance lat1 lon1 lat2 lon2 = some (hd, dist) →
        0 ≤ hd ∧ hd < 360 :=
  ⟨chd_self lat1 lon1, chd_symm lat1 lon1 lat2 lon2,
    fun hd dist heq => chd_heading_range lat1 lon1 lat2 lon2 hd dist heq⟩

/-- Witness for C9 at the origin: the call returns `some (0, 0)` and the
heading bound holds there. -/
theorem heading_distance_properties_witness :
    calculate_heading_distance 0 0 0 0 = some (0, 0) ∧
      0 ≤ (0 : ℝ) ∧ (0 : ℝ) < 360 :=
  ⟨chd_at_zero,
    (heading_distance_properties 0 0 0 0).2.2 0 0 chd_at_zero⟩


